import Mathlib

/-!
RethinkDB C++ driver: the connection protocol layer.

A shallow embedding of `src/connection.cpp` (namespace `com::rethinkdb::driver`) and
`src/rethink_db.cpp` (namespace `com::rethinkdb`): the handshake run by `connect`, the
length-prefixed framing of `write_query` / `read_response`, and `connection::parse`.

The socket is a simulated stream: bytes written are appended to a wire log, bytes to be read
come from a scripted list of segments.  A `boost::asio::streambuf` is the list of bytes it holds.
Exceptions are explicit: every operation returns its outcome together with the state it leaves
behind, so that what an operation did before it threw stays visible.
-/

namespace com.rethinkdb

/-- One `char` of a buffer or of a `std::string`. -/
abbrev Byte := Fin 256

/-- The bytes of a string literal of the source. -/
def ascii (s : String) : List Byte :=
  s.toList.map (fun ch => ⟨ch.toNat % 256, Nat.mod_lt _ (by decide)⟩)

/-- Conversion of a `size_t` to the 32-bit `u_int` (`u_int n = s.length();`). -/
def to_u_int (n : Nat) : Nat := n % 2 ^ 32

/-- Conversion of a 32-bit `u_int` to the 32-bit `int` of a parameter `int size`: values from
`2 ^ 31` on wrap to negative ones. -/
def to_int (n : Nat) : Int :=
  if n % 2 ^ 32 < 2 ^ 31 then ((n % 2 ^ 32 : Nat) : Int) else ((n % 2 ^ 32 : Nat) : Int) - 2 ^ 32

/-- Object representation of a 4-byte integer on the little-endian host:
the bytes `stream.write((char*)&x, sizeof x)` emits. -/
def u_int_bytes (x : Nat) : List Byte :=
  [⟨x % 256, Nat.mod_lt _ (by decide)⟩,
   ⟨x / 256 % 256, Nat.mod_lt _ (by decide)⟩,
   ⟨x / 65536 % 256, Nat.mod_lt _ (by decide)⟩,
   ⟨x / 16777216 % 256, Nat.mod_lt _ (by decide)⟩]

/-- The `u_int` whose object representation was filled by `buffer(&x, sizeof(u_int))`. -/
def u_int_of_bytes : List Byte → Nat
  | [b0, b1, b2, b3] => b0.val + 256 * b1.val + 65536 * b2.val + 16777216 * b3.val
  | _ => 0

/-- The C string a `std::string` yields through `c_str()`: it ends at the first NUL. -/
def c_str (s : List Byte) : List Byte := s.takeWhile (fun b => b ≠ 0)

/-- The class `connection_exception` (`rethink_db.cpp`, lines 10 to 14); `what` is the text
`what()` reports, a C string. -/
structure connection_exception where
  what : List Byte
deriving DecidableEq

/-- Constructor `connection_exception(const std::string& msg) : runtime_error(msg.c_str())`. -/
def connection_exception.of_msg (msg : List Byte) : connection_exception :=
  ⟨c_str msg⟩

/-- The failures of the transport, thrown by Boost.Asio as `boost::system::system_error`. -/
inductive system_error where
  | host_not_found
  | connection_refused
  | bad_descriptor
  | broken_pipe
  | eof
deriving DecidableEq

/-- Text of `e.what()` for a transport failure. -/
def system_error.what : system_error → List Byte
  | .host_not_found => ascii "Host not found (authoritative)"
  | .connection_refused => ascii "Connection refused"
  | .bad_descriptor => ascii "Bad file descriptor"
  | .broken_pipe => ascii "Broken pipe"
  | .eof => ascii "End of file"

/-- The simulated stream socket together with its resolver.
`resolves` and `accepts` say whether name resolution and the TCP connect succeed;
`write_room` is how many more bytes the peer takes before a write fails (`none`: no limit);
`incoming` is the sequence of segments the peer delivers, after which the stream is closed;
`wire` is everything sent so far. -/
structure Socket where
  is_open : Bool
  resolves : Bool
  accepts : Bool
  write_room : Option Nat
  incoming : List (List Byte)
  wire : List Byte
deriving DecidableEq

/-- Call `resolver_.resolve(query)`. -/
def resolver_resolve (s : Socket) : Except system_error Unit :=
  if s.resolves then .ok () else .error .host_not_found

/-- Call `boost::asio::connect(socket_, iterator)`: the socket is open afterwards exactly when
the peer accepted. -/
def asio_connect (s : Socket) : Except system_error Unit × Socket :=
  if s.accepts then (.ok (), { s with is_open := true })
  else (.error .connection_refused, { s with is_open := false })

/-- Call `boost::asio::write(socket_, streambuf)`: sends the whole content of the streambuf and
consumes what was sent; returns the outcome, the socket and the streambuf left. -/
def asio_write (s : Socket) (b : List Byte) : Except system_error Nat × Socket × List Byte :=
  if !s.is_open then (.error .bad_descriptor, s, b)
  else match s.write_room with
    | none => (.ok b.length, { s with wire := s.wire ++ b }, [])
    | some k =>
      if b.length ≤ k then
        (.ok b.length, { s with wire := s.wire ++ b, write_room := some (k - b.length) }, [])
      else
        (.error .broken_pipe, { s with wire := s.wire ++ b.take k, write_room := some 0 },
          b.drop k)

/-- Takes up to `n` bytes off the front of the segments still to come: the bytes obtained and
the segments left. -/
def recv : List (List Byte) → Nat → List Byte × List (List Byte)
  | [], _ => ([], [])
  | c :: cs, n =>
    if n = 0 then ([], c :: cs)
    else if c.length ≤ n then
      (c ++ (recv cs (n - c.length)).1, (recv cs (n - c.length)).2)
    else (c.take n, c.drop n :: cs)

/-- Call `boost::asio::read(socket_, buffer(p, n))` (the throwing overload): returns only with
the buffer full, and throws when the stream ends first. -/
def asio_read (s : Socket) (n : Nat) : Except system_error (List Byte) × Socket :=
  if !s.is_open then (.error .bad_descriptor, s)
  else
    let r := recv s.incoming n
    if r.1.length = n then (.ok r.1, { s with incoming := r.2 })
    else (.error .eof, { s with incoming := r.2 })

/-- Receives segment after segment into the streambuf until it holds the delimiter:
whether it does, the streambuf, the segments left. -/
def fill_until (delim : Byte) : List (List Byte) → List Byte → Bool × List Byte × List (List Byte)
  | [], b => (decide (delim ∈ b), b, [])
  | c :: cs, b => if delim ∈ b then (true, b, c :: cs) else fill_until delim cs (b ++ c)

/-- Call `boost::asio::read_until(socket_, streambuf, delim)`: returns at once when the
streambuf already holds the delimiter, else receives until it does; the value is the number of
bytes up to and including the delimiter. -/
def asio_read_until (s : Socket) (b : List Byte) (delim : Byte) :
    Except system_error Nat × Socket × List Byte :=
  if delim ∈ b then (.ok ((b.takeWhile (fun x => x ≠ delim)).length + 1), s, b)
  else if !s.is_open then (.error .bad_descriptor, s, b)
  else
    let r := fill_until delim s.incoming b
    if r.1 then
      (.ok ((r.2.1.takeWhile (fun x => x ≠ delim)).length + 1), { s with incoming := r.2.2 }, r.2.1)
    else (.error .eof, { s with incoming := r.2.2 }, r.2.1)

/-- Call `getline(stream, line)` on a stream over the streambuf: the line extracted (up to the
first newline, which is consumed and not stored, or else everything buffered) and the
streambuf left. -/
def getline (b : List Byte) : List Byte × List Byte :=
  (b.takeWhile (fun x => x ≠ 10), (b.dropWhile (fun x => x ≠ 10)).drop 1)

/-- Formatting of a `size_t` or `u_int` by `boost::format`. -/
def decimal (n : Nat) : List Byte := ascii (toString n)

/-- What a call of `Response::ParseFromArray` can do: raise a C++ exception, or return its
`bool` verdict with the message object as parsing left it. -/
inductive ParseOutcome (Response : Type) where
  | raised
  | returned (ok : Bool) (msg : Response)

/-- The generated protocol-buffer code the driver is compiled against (`ql2.pb.h`), which is
not part of the sources: the value of the constant `VersionDummy::V0_2`, the serializer of
`Query` and the deserializer of `Response`, `ParseFromArray(const void* data, int size)`. -/
structure Protobuf (Query Response : Type) where
  V0_2 : Nat
  SerializeAsString : Query → List Byte
  ParseFromArray : List Byte → Int → ParseOutcome Response

/-- The data members of class `connection`. -/
structure connection where
  host : List Byte
  port : List Byte
  database : List Byte
  auth_key : List Byte
  is_connected : Bool
  socket_ : Socket
  request_ : List Byte
  response_ : List Byte
deriving DecidableEq

/-- Constructor `connection::connection` of `connection.cpp`: stores the four strings, clears
`is_connected`, and default-constructs the (closed) socket and the two (empty) streambufs.
`net` is the network the socket will talk to. -/
def driver.connection.init (net : Socket) (host port database auth_key : List Byte) :
    connection :=
  { host := host, port := port, database := database, auth_key := auth_key,
    is_connected := false, socket_ := { net with is_open := false },
    request_ := [], response_ := [] }

/-- Method `connection::connect` of `connection.cpp`. The classification of the response line
is outside the `try`, so the exception of line 65 reaches the caller as thrown. -/
def driver.connection.connect {Query Response : Type} (pb : Protobuf Query Response)
    (c : connection) : Except connection_exception Bool × connection :=
  if c.socket_.is_open && c.is_connected then (.ok true, c)
  else
    match resolver_resolve c.socket_ with
    | .error e => (.error (connection_exception.of_msg e.what), c)
    | .ok () =>
      match asio_connect c.socket_ with
      | (.error e, s1) => (.error (connection_exception.of_msg e.what), { c with socket_ := s1 })
      | (.ok (), s1) =>
        let auth_key_length := to_u_int c.auth_key.length
        let request :=
          c.request_ ++ u_int_bytes pb.V0_2 ++ u_int_bytes auth_key_length ++ c.auth_key
        match asio_write s1 request with
        | (.error e, s2, req) =>
          (.error (connection_exception.of_msg e.what),
            { c with socket_ := s2, request_ := req })
        | (.ok _, s2, req) =>
          match asio_read_until s2 c.response_ 0 with
          | (.error e, s3, resp) =>
            (.error (connection_exception.of_msg e.what),
              { c with socket_ := s3, request_ := req, response_ := resp })
          | (.ok _, s3, resp) =>
            let response := (getline resp).1
            if response.take 7 = ascii "SUCCESS" then
              (.ok true, { c with socket_ := s3, request_ := req,
                                  response_ := (getline resp).2, is_connected := true })
            else
              (.error (connection_exception.of_msg response),
                { c with socket_ := s3, request_ := req,
                         response_ := (getline resp).2, is_connected := false })

/-- Method `connection::read_response` of `connection.cpp`. Every exception raised inside the
outer `try` leaves as `connection_exception("Read response: " + what)`. -/
def driver.connection.read_response {Query Response : Type} (pb : Protobuf Query Response)
    (c : connection) : Except connection_exception Response × connection :=
  let rethrow (e : connection_exception) : connection_exception :=
    connection_exception.of_msg (ascii "Read response: " ++ e.what)
  let unable := connection_exception.of_msg (ascii "Unable to read from the socket.")
  match asio_read c.socket_ 4 with
  | (.error _, s1) => (.error (rethrow unable), { c with socket_ := s1 })
  | (.ok header, s1) =>
    let response_length := u_int_of_bytes header
    match asio_read s1 response_length with
    | (.error _, s2) => (.error (rethrow unable), { c with socket_ := s2 })
    | (.ok reply, s2) =>
      let bytes_read := reply.length
      if bytes_read ≠ response_length then
        (.error (rethrow (connection_exception.of_msg
            (decimal bytes_read ++ ascii " bytes read, when " ++ decimal response_length
              ++ ascii " bytes promised."))),
          { c with socket_ := s2 })
      else
        match pb.ParseFromArray reply (to_int response_length) with
        | .raised =>
          (.error (rethrow (connection_exception.of_msg
              (ascii "Unable to parse the protobuf Response object."))),
            { c with socket_ := s2 })
        | .returned _ msg => (.ok msg, { c with socket_ := s2 })

/-- Method `connection::write_query` of `connection.cpp`. -/
def driver.connection.write_query {Query Response : Type} (pb : Protobuf Query Response)
    (query : Query) (c : connection) : Except connection_exception Unit × connection :=
  let blob := pb.SerializeAsString query
  let blob_length := to_u_int blob.length
  let request := c.request_ ++ u_int_bytes blob_length ++ blob
  match asio_write c.socket_ request with
  | (.error e, s1, req) =>
    (.error (connection_exception.of_msg (ascii "Write query: exception: " ++ e.what)),
      { c with socket_ := s1, request_ := req })
  | (.ok _, s1, req) => (.ok (), { c with socket_ := s1, request_ := req })

/-- Method `connection::connect` of `rethink_db.cpp`. The classification is inside the `try`:
the exception of line 91 is caught at line 93 and thrown again with `e.what()`. -/
def connection.connect {Query Response : Type} (pb : Protobuf Query Response)
    (c : connection) : Except connection_exception Bool × connection :=
  if c.socket_.is_open && c.is_connected then (.ok true, c)
  else
    match resolver_resolve c.socket_ with
    | .error e => (.error (connection_exception.of_msg e.what), c)
    | .ok () =>
      match asio_connect c.socket_ with
      | (.error e, s1) => (.error (connection_exception.of_msg e.what), { c with socket_ := s1 })
      | (.ok (), s1) =>
        let auth_key_length := to_u_int c.auth_key.length
        let request :=
          c.request_ ++ u_int_bytes pb.V0_2 ++ u_int_bytes auth_key_length ++ c.auth_key
        match asio_write s1 request with
        | (.error e, s2, req) =>
          (.error (connection_exception.of_msg e.what),
            { c with socket_ := s2, request_ := req })
        | (.ok _, s2, req) =>
          match asio_read_until s2 c.response_ 0 with
          | (.error e, s3, resp) =>
            (.error (connection_exception.of_msg e.what),
              { c with socket_ := s3, request_ := req, response_ := resp })
          | (.ok _, s3, resp) =>
            let response := (getline resp).1
            if response.take 7 = ascii "SUCCESS" then
              (.ok true, { c with socket_ := s3, request_ := req,
                                  response_ := (getline resp).2, is_connected := true })
            else
              let thrown := connection_exception.of_msg
                (ascii "Error while connecting to RethinkDB server: " ++ response)
              (.error (connection_exception.of_msg thrown.what),
                { c with socket_ := s3, request_ := req,
                         response_ := (getline resp).2, is_connected := false })

/-- Constructor `connection::connection` of `rethink_db.cpp`: as in `connection.cpp`, then it
calls `connect()`; an exception of `connect()` leaves the constructor. -/
def connection.init {Query Response : Type} (pb : Protobuf Query Response)
    (net : Socket) (host port database auth_key : List Byte) :
    Except connection_exception connection :=
  let c : connection :=
    { host := host, port := port, database := database, auth_key := auth_key,
      is_connected := false, socket_ := { net with is_open := false },
      request_ := [], response_ := [] }
  match connection.connect pb c with
  | (.error e, _) => .error e
  | (.ok _, c1) => .ok c1

/-- Method `connection::read_response` of `rethink_db.cpp`. -/
def connection.read_response {Query Response : Type} (pb : Protobuf Query Response)
    (c : connection) : Except connection_exception Response × connection :=
  let rethrow (e : connection_exception) : connection_exception :=
    connection_exception.of_msg (ascii "Connection exception - read response: " ++ e.what)
  let unable := connection_exception.of_msg (ascii "Unable to read from the socket.")
  match asio_read c.socket_ 4 with
  | (.error _, s1) => (.error (rethrow unable), { c with socket_ := s1 })
  | (.ok header, s1) =>
    let response_length := u_int_of_bytes header
    match asio_read s1 response_length with
    | (.error _, s2) => (.error (rethrow unable), { c with socket_ := s2 })
    | (.ok reply, s2) =>
      let bytes_read := reply.length
      if bytes_read ≠ response_length then
        (.error (rethrow (connection_exception.of_msg
            (decimal bytes_read ++ ascii " bytes read, when " ++ decimal response_length
              ++ ascii " bytes promised."))),
          { c with socket_ := s2 })
      else
        match pb.ParseFromArray reply (to_int response_length) with
        | .raised =>
          (.error (rethrow (connection_exception.of_msg
              (ascii "Unable to parse the protobuf Response object."))),
            { c with socket_ := s2 })
        | .returned _ msg => (.ok msg, { c with socket_ := s2 })

/-- Method `connection::write_query` of `rethink_db.cpp`. -/
def connection.write_query {Query Response : Type} (pb : Protobuf Query Response)
    (query : Query) (c : connection) : Except connection_exception Unit × connection :=
  let blob := pb.SerializeAsString query
  let blob_length := to_u_int blob.length
  let request := c.request_ ++ u_int_bytes blob_length ++ blob
  match asio_write c.socket_ request with
  | (.error e, s1, req) =>
    (.error (connection_exception.of_msg
        (ascii "Connection exception - write query: exception: " ++ e.what)),
      { c with socket_ := s1, request_ := req })
  | (.ok _, s1, req) => (.ok (), { c with socket_ := s1, request_ := req })

/-- Modelled from the spec: the enumeration `Datum::DatumType` of the generated header
`ql2.pb.h`, which is not part of the sources. The six recognised kinds carry the names the
source uses; `unrecognised tag` stands for a type tag outside them. -/
inductive Datum_DatumType where
  | R_NULL
  | R_BOOL
  | R_NUM
  | R_STR
  | R_ARRAY
  | R_OBJECT
  | unrecognised (tag : Nat)
deriving DecidableEq

/-- Whether a type tag is one of the six recognised kinds. -/
def Datum_DatumType.recognised : Datum_DatumType → Bool
  | .unrecognised _ => false
  | _ => true

/-- Modelled from the spec: the protocol-buffer message `com::rethinkdb::Datum` (the raw value
tree; its generated class is not part of the sources): a type tag plus a bool, a number (the
bit pattern of the double), a string, an ordered list of raw values and an ordered list of
key/value raw pairs. -/
inductive Datum where
  | mk (type : Datum_DatumType) (r_bool : Bool) (r_num : Nat) (r_str : List Byte)
      (r_array : List Datum) (r_object : List (List Byte × Datum))

/-- Accessor `Datum::type()`. -/
def Datum.type : Datum → Datum_DatumType
  | .mk t _ _ _ _ _ => t

/-- Modelled from the spec: the driver class `datum` with its six kinds (`datum.hpp` is not
part of the sources; the commented-out body of `connection::parse` names the kinds
`null_datum`, `bool_datum`, `num_datum`, `str_datum`, `array_datum`). -/
inductive driver.datum where
  | null_datum
  | bool_datum (value : Bool)
  | num_datum (value : Nat)
  | str_datum (value : List Byte)
  | array_datum (value : List driver.datum)
  | object_datum (value : List (List Byte × driver.datum))

/-- Method `connection::parse` of `connection.cpp`. The switch over `input.type()` (lines
133 to 162) is inside a comment; the body that is compiled is line 163 alone,
`return make_shared<datum>(Datum_DatumType_R_NULL);`, and it throws nothing. -/
def driver.connection.parse (_input : Datum) : Except connection_exception driver.datum :=
  .ok driver.datum.null_datum

/-! Definitions used to state the properties and to run the code on concrete inputs. -/

/-- The response string of the handshake in the words of the specification: the text before
the NUL, cut at its first newline when it has one. -/
def spec_response_string (reply : List Byte) : List Byte :=
  (reply.takeWhile (fun x => x ≠ 0)).takeWhile (fun x => x ≠ 10)

/-- A stand-in for the generated protocol-buffer code in concrete runs: a query is its own
serialization; the deserializer records the buffer and the size it is called with, and
returns `false` for the one-byte payload `0xFF` (a field tag cut short), `true` otherwise.
`V0_2` has the value `0x723081e1` that `ql2.proto` of RethinkDB gives it. -/
def recording_pb : Protobuf (List Byte) (List Byte × Int) :=
  { V0_2 := 0x723081e1,
    SerializeAsString := fun q => q,
    ParseFromArray := fun reply size => .returned (decide (reply ≠ [255])) (reply, size) }

/-- A network that resolves and accepts, takes every write, and delivers the given segments
before it closes the stream. -/
def scripted (incoming : List (List Byte)) : Socket :=
  { is_open := false, resolves := true, accepts := true, write_room := none,
    incoming := incoming, wire := [] }

/-- A newly constructed connection of `connection.cpp` to a scripted network. -/
def fresh (auth_key : List Byte) (incoming : List (List Byte)) : connection :=
  driver.connection.init (scripted incoming) (ascii "localhost") (ascii "28015") (ascii "test")
    auth_key

/-- The connection after the handshake of a new connection (empty credential) with a peer
that replies `SUCCESS` NUL and will then deliver the given segments. -/
def established (incoming : List (List Byte)) : connection :=
  (driver.connection.connect recording_pb (fresh [] ((ascii "SUCCESS" ++ [0]) :: incoming))).2

/-- A new connection with the credential `key` whose peer replies `SUCCESS` NUL to the
handshake and then delivers two frames, with the payloads `05` and `06`. -/
def two_answers : connection :=
  fresh (ascii "key") [ascii "SUCCESS" ++ [0], [1, 0, 0, 0, 5], [1, 0, 0, 0, 6]]

/-- A new connection of `connection.cpp` with the credential `key` on which `write_query` was
called, with the payload `07 08`, before any `connect`. -/
def query_before_connect : connection :=
  (driver.connection.write_query recording_pb [7, 8] (fresh (ascii "key") [])).2

/-- A new connection of `connection.cpp` with the credential `key` after a first `connect`
whose reply was `no`, newline, NUL; the peer sends `reply` to the next handshake. -/
def rejected_then (reply : List Byte) : connection :=
  (driver.connection.connect recording_pb (fresh (ascii "key") [ascii "no" ++ [10, 0], reply])).2

/-- A payload of `2 ^ 32` bytes, all zero. -/
def big_payload : List Byte := List.replicate (2 ^ 32) 0

/-- A payload of `2 ^ 31` bytes, all zero. -/
def half_payload : List Byte := List.replicate (2 ^ 31) 0

/-- A raw value of kind bool carrying `true`. -/
def raw_true : Datum := .mk .R_BOOL true 0 [] [] []

/-- A raw value whose type tag, 7, is outside the six recognised kinds. -/
def raw_unrecognised : Datum := .mk (.unrecognised 7) false 0 [] [] []

/-! Integers on the wire and the simulated stream. -/

/-- Reading back the four bytes of a `u_int` gives the value reduced modulo `2 ^ 32`. -/
theorem u_int_of_bytes_u_int_bytes (n : Nat) : u_int_of_bytes (u_int_bytes n) = n % 2 ^ 32 := by
  simp only [u_int_bytes, u_int_of_bytes]
  omega

/-- A `u_int` below `2 ^ 31` survives the conversion to `int`. -/
theorem to_int_of_lt {n : Nat} (h : n < 2 ^ 31) : to_int n = (n : Int) := by
  have h2 : n % 2 ^ 32 = n := Nat.mod_eq_of_lt (by omega)
  unfold to_int
  rw [h2, if_pos h]

/-- A length below `2 ^ 32` survives the conversion to `u_int`. -/
theorem to_u_int_of_lt {n : Nat} (h : n < 2 ^ 32) : to_u_int n = n := Nat.mod_eq_of_lt h

/-- The bytes `recv` obtains are the first `n` bytes of the stream, whatever the segmentation. -/
theorem recv_fst (cs : List (List Byte)) (n : Nat) : (recv cs n).1 = cs.flatten.take n := by
  induction cs generalizing n with
  | nil => simp [recv]
  | cons c cs ih =>
    simp only [recv, List.flatten_cons]
    split
    · next h => simp [h]
    · split
      · next h1 h2 => simp [ih, List.take_append_eq_append_take, List.take_of_length_le h2]
      · next h1 h2 =>
        have : n ≤ c.length := by omega
        simp [List.take_append_eq_append_take, Nat.sub_eq_zero_of_le this]

/-- The segments `recv` leaves hold the stream without its first `n` bytes. -/
theorem recv_snd (cs : List (List Byte)) (n : Nat) : (recv cs n).2.flatten = cs.flatten.drop n := by
  induction cs generalizing n with
  | nil => simp [recv]
  | cons c cs ih =>
    simp only [recv, List.flatten_cons]
    split
    · next h => simp [h]
    · split
      · next h1 h2 => simp [ih, List.drop_append_eq_append_drop, List.drop_of_length_le h2]
      · next h1 h2 =>
        have : n ≤ c.length := by omega
        simp [List.drop_append_eq_append_drop, Nat.sub_eq_zero_of_le this]

/-- A read of `n` bytes from an open socket whose stream starts with `n` bytes `a` returns `a` and
leaves the rest. -/
theorem asio_read_exact (s : Socket) (n : Nat) (a rest : List Byte) (ho : s.is_open = true)
    (hin : s.incoming.flatten = a ++ rest) (ha : a.length = n) :
    asio_read s n = (.ok a, { s with incoming := (recv s.incoming n).2 })
      ∧ (recv s.incoming n).2.flatten = rest := by
  have e1 : (recv s.incoming n).1 = a := by
    rw [recv_fst, hin, ← ha]
    simp
  have e2 : (recv s.incoming n).2.flatten = rest := by
    rw [recv_snd, hin, ← ha]
    simp
  refine ⟨?_, e2⟩
  simp [asio_read, ho, e1, ha]

/-- A read changes neither the wire, nor whether the socket is open, nor the room for writes. -/
theorem asio_read_socket (s : Socket) (n : Nat) :
    (asio_read s n).2.wire = s.wire ∧ (asio_read s n).2.is_open = s.is_open
      ∧ (asio_read s n).2.write_room = s.write_room := by
  unfold asio_read
  split
  · simp
  · simp only []
    split <;> simp

/-- A write that returns normally was on an open socket, sent the whole streambuf and emptied it. -/
theorem asio_write_ok {s s2 : Socket} {b req : List Byte} {n : Nat}
    (h : asio_write s b = (.ok n, s2, req)) :
    s.is_open = true ∧ s2.is_open = true ∧ req = [] ∧ s2.wire = s.wire ++ b := by
  unfold asio_write at h
  split at h
  · simp at h
  · next ho =>
    have ho2 : s.is_open = true := by simpa using ho
    split at h
    · simp only [Prod.mk.injEq] at h
      obtain ⟨_, rfl, rfl⟩ := h
      simp [ho2]
    · split at h
      · simp only [Prod.mk.injEq] at h
        obtain ⟨_, rfl, rfl⟩ := h
        simp [ho2]
      · simp at h

/-- A write to an open socket with unbounded room sends the whole streambuf. -/
theorem asio_write_unbounded (s : Socket) (b : List Byte) (ho : s.is_open = true)
    (hroom : s.write_room = none) :
    asio_write s b = (.ok b.length, { s with wire := s.wire ++ b }, []) := by
  simp [asio_write, ho, hroom]

/-- The streambuf after `fill_until` is an initial part of what was buffered followed by the stream. -/
theorem fill_until_buffer (d : Byte) (cs : List (List Byte)) (b : List Byte) :
    (fill_until d cs b).2.1 <+: b ++ cs.flatten := by
  induction cs generalizing b with
  | nil => simp [fill_until]
  | cons c cs ih =>
    simp only [fill_until]
    split
    · exact List.prefix_append _ _
    · simpa [List.append_assoc] using ih (b ++ c)

/-- When the delimiter is buffered or still to come, `fill_until` finds it and the streambuf holds
it. -/
theorem fill_until_found (d : Byte) (cs : List (List Byte)) (b : List Byte)
    (h : d ∈ b ++ cs.flatten) :
    (fill_until d cs b).1 = true ∧ d ∈ (fill_until d cs b).2.1 := by
  induction cs generalizing b with
  | nil => simpa [fill_until] using h
  | cons c cs ih =>
    simp only [fill_until]
    split
    · next hb => exact ⟨rfl, hb⟩
    · exact ih (b ++ c) (by simpa [List.append_assoc] using h)

/-- Reading until a delimiter leaves the wire as it was. -/
theorem asio_read_until_wire (s : Socket) (b : List Byte) (d : Byte) :
    (asio_read_until s b d).2.1.wire = s.wire := by
  unfold asio_read_until
  split
  · simp
  · split
    · simp
    · simp only []
      split <;> simp

/-- Reading until a delimiter does not open or close the socket. -/
theorem asio_read_until_is_open (s : Socket) (b : List Byte) (d : Byte) :
    (asio_read_until s b d).2.1.is_open = s.is_open := by
  unfold asio_read_until
  split
  · simp
  · split
    · simp
    · simp only []
      split <;> simp

/-- On an open socket with an empty streambuf, `read_until` succeeds when the delimiter is still to
come. -/
theorem asio_read_until_fresh (s : Socket) (d : Byte) (hopen : s.is_open = true)
    (h : d ∈ s.incoming.flatten) :
    asio_read_until s [] d =
      (.ok (((fill_until d s.incoming []).2.1.takeWhile (fun x => x ≠ d)).length + 1),
        { s with incoming := (fill_until d s.incoming []).2.2 },
        (fill_until d s.incoming []).2.1) := by
  have hf := (fill_until_found d s.incoming [] (by simpa using h)).1
  simp [asio_read_until, hopen, hf]

/-! Lists of bytes. -/

/-- An initial part of `t ++ [d]` that holds `d`, where `t` does not, is all of `t ++ [d]`. -/
theorem eq_concat_of_initial_of_mem {d : Byte} {l t : List Byte} (hp : l <+: t ++ [d])
    (hl : d ∈ l) (ht : d ∉ t) : l = t ++ [d] := by
  obtain ⟨s, hs⟩ := hp
  rcases List.eq_nil_or_concat s with rfl | ⟨s1, x, rfl⟩
  · simpa using hs
  · exfalso
    have h2 : l ++ s1 ++ [x] = t ++ [d] := by simpa [List.append_assoc] using hs
    have h3 := List.append_inj_left' h2 rfl
    exact ht (h3 ▸ List.mem_append_left _ hl)

/-- Cutting at the first `d` gives the same text for a list and for an initial part of it that holds
`d`. -/
theorem takeWhile_ne_of_initial {d : Byte} {l m : List Byte} (hp : l <+: m) (hl : d ∈ l) :
    l.takeWhile (fun x => x ≠ d) = m.takeWhile (fun x => x ≠ d) := by
  obtain ⟨s, rfl⟩ := hp
  induction l with
  | nil => simp at hl
  | cons a l ih =>
    by_cases ha : a = d
    · simp [List.takeWhile, ha]
    · have : d ∈ l := by
        rcases List.mem_cons.1 hl with h | h
        · exact absurd h.symm ha
        · exact h
      simpa [List.takeWhile, ha] using ih this

/-- A text whose bytes all pass the test starts `takeWhile` of a list exactly when it starts the
list. -/
theorem initial_takeWhile_iff (p : Byte → Bool) (S l : List Byte) (hS : ∀ x ∈ S, p x = true) :
    S <+: l.takeWhile p ↔ S <+: l := by
  induction S generalizing l with
  | nil => simp
  | cons a S ih =>
    cases l with
    | nil => simp
    | cons b l =>
      by_cases hb : p b = true
      · have hS2 : ∀ x ∈ S, p x = true := fun x hx => hS x (List.mem_cons_of_mem _ hx)
        simp [List.takeWhile, hb, List.cons_prefix_cons, ih l hS2]
      · have hab : a ≠ b := by
          intro h
          exact hb (h ▸ hS a (List.mem_cons_self _ _))
        simp [List.takeWhile, hb, List.cons_prefix_cons, hab]

/-- The comparison `substr(0, 7) == S` for a seven-byte `S` says that the string starts with `S`. -/
theorem take_seven_eq_iff (S l : List Byte) (hS : S.length = 7) : l.take 7 = S ↔ S <+: l := by
  rw [List.prefix_iff_eq_take, hS]
  exact eq_comm

/-- Two cuts commute. -/
theorem takeWhile_takeWhile_comm (p q : Byte → Bool) (l : List Byte) :
    (l.takeWhile p).takeWhile q = (l.takeWhile q).takeWhile p := by
  induction l with
  | nil => rfl
  | cons a l ih =>
    by_cases hp : p a = true <;> by_cases hq : q a = true <;> simp [List.takeWhile, hp, hq, ih]

/-- Cutting `t ++ [d]` at the first `d` gives `t` when `t` does not hold `d`. -/
theorem takeWhile_concat_self (d : Byte) (t : List Byte) (ht : d ∉ t) :
    (t ++ [d]).takeWhile (fun x => x ≠ d) = t := by
  induction t with
  | nil => simp [List.takeWhile]
  | cons a t ih =>
    have ha : a ≠ d := fun h => ht (h ▸ List.mem_cons_self _ _)
    have ht2 : d ∉ t := fun h => ht (List.mem_cons_of_mem _ h)
    simpa [List.takeWhile, ha] using ih ht2

/-- The seven bytes of the literal `SUCCESS`. -/
theorem ascii_SUCCESS : ascii "SUCCESS" = [83, 85, 67, 67, 69, 83, 83] := by decide

/-- The test of the code on the line it read agrees with the response string of the specification,
for any streambuf that is an initial part of the reply and holds the NUL. -/
theorem success_test_iff {buf reply : List Byte} (hp : buf <+: reply) (h0 : (0 : Byte) ∈ buf) :
    ((getline buf).1.take 7 = ascii "SUCCESS") ↔ ascii "SUCCESS" <+: spec_response_string reply := by
  have hS0 : ∀ x ∈ ascii "SUCCESS", (fun x : Byte => decide (x ≠ 0)) x = true := by
    rw [ascii_SUCCESS]
    intro x hx
    simp only [List.mem_cons, List.mem_singleton, List.not_mem_nil, or_false] at hx
    rcases hx with rfl | rfl | rfl | rfl | rfl | rfl | rfl <;> decide
  have hS10 : ∀ x ∈ ascii "SUCCESS", (fun x : Byte => decide (x ≠ 10)) x = true := by
    rw [ascii_SUCCESS]
    intro x hx
    simp only [List.mem_cons, List.mem_singleton, List.not_mem_nil, or_false] at hx
    rcases hx with rfl | rfl | rfl | rfl | rfl | rfl | rfl <;> decide
  rw [take_seven_eq_iff _ _ (by decide)]
  unfold getline spec_response_string
  rw [initial_takeWhile_iff _ _ _ hS10, initial_takeWhile_iff _ _ _ hS10,
    ← takeWhile_ne_of_initial hp h0, initial_takeWhile_iff _ _ _ hS0]

/-- For a reply `t ++ [0]` in any segmentation, the streambuf after `fill_until` is an initial part
of the reply that holds the NUL. -/
theorem reply_buffer {segments : List (List Byte)} {t : List Byte}
    (hin : segments.flatten = t ++ [0]) :
    (0 : Byte) ∈ segments.flatten ∧ (fill_until 0 segments []).2.1 <+: t ++ [0]
      ∧ (0 : Byte) ∈ (fill_until 0 segments []).2.1 := by
  have hnul : (0 : Byte) ∈ segments.flatten := by rw [hin]; simp
  refine ⟨hnul, ?_, (fill_until_found 0 segments [] (by simpa using hnul)).2⟩
  have := fill_until_buffer 0 segments []
  rwa [List.nil_append, hin] at this

/-- Iterating a function at a fixed point stays there. -/
theorem iterate_fixed {α : Type} (f : α → α) (a : α) (h : f a = a) (n : Nat) :
    Nat.iterate f n a = a := by
  induction n with
  | zero => rfl
  | succ n ih => rw [Function.iterate_succ_apply, h, ih]

/-! The handshake of both implementations. -/

/-- What `connect` of `connection.cpp` does on a connection that is not connected, has an empty
response streambuf and a reachable peer whose reply holds a NUL. -/
theorem driver_connect_handshake {Query Response : Type} (pb : Protobuf Query Response)
    (c : connection)
    (hres : c.socket_.resolves = true) (hacc : c.socket_.accepts = true)
    (hroom : c.socket_.write_room = none)
    (hc : c.is_connected = false) (hresp : c.response_ = [])
    (hnul : (0 : Byte) ∈ c.socket_.incoming.flatten) :
    driver.connection.connect pb c =
      if (getline (fill_until 0 c.socket_.incoming []).2.1).1.take 7 = ascii "SUCCESS" then
        (.ok true,
          { c with
            socket_ := { c.socket_ with
              is_open := true
              incoming := (fill_until 0 c.socket_.incoming []).2.2
              wire := c.socket_.wire ++ (c.request_ ++ u_int_bytes pb.V0_2
                ++ u_int_bytes (to_u_int c.auth_key.length) ++ c.auth_key) }
            request_ := []
            response_ := (getline (fill_until 0 c.socket_.incoming []).2.1).2
            is_connected := true })
      else
        (.error (connection_exception.of_msg (getline (fill_until 0 c.socket_.incoming []).2.1).1),
          { c with
            socket_ := { c.socket_ with
              is_open := true
              incoming := (fill_until 0 c.socket_.incoming []).2.2
              wire := c.socket_.wire ++ (c.request_ ++ u_int_bytes pb.V0_2
                ++ u_int_bytes (to_u_int c.auth_key.length) ++ c.auth_key) }
            request_ := []
            response_ := (getline (fill_until 0 c.socket_.incoming []).2.1).2
            is_connected := false }) := by
  simp only [driver.connection.connect, hc, resolver_resolve, hres, asio_connect, hacc,
      asio_write, hroom, hresp, Bool.and_false, Bool.false_eq_true,
      if_false, if_true, Bool.not_true]
  rw [asio_read_until_fresh]
  · rfl
  · exact hnul

/-- What `connect` of `rethink_db.cpp` does on a connection that is not connected, has an empty
response streambuf and a reachable peer whose reply holds a NUL. -/
theorem connect_handshake {Query Response : Type} (pb : Protobuf Query Response)
    (c : connection)
    (hres : c.socket_.resolves = true) (hacc : c.socket_.accepts = true)
    (hroom : c.socket_.write_room = none)
    (hc : c.is_connected = false) (hresp : c.response_ = [])
    (hnul : (0 : Byte) ∈ c.socket_.incoming.flatten) :
    connection.connect pb c =
      if (getline (fill_until 0 c.socket_.incoming []).2.1).1.take 7 = ascii "SUCCESS" then
        (.ok true,
          { c with
            socket_ := { c.socket_ with
              is_open := true
              incoming := (fill_until 0 c.socket_.incoming []).2.2
              wire := c.socket_.wire ++ (c.request_ ++ u_int_bytes pb.V0_2
                ++ u_int_bytes (to_u_int c.auth_key.length) ++ c.auth_key) }
            request_ := []
            response_ := (getline (fill_until 0 c.socket_.incoming []).2.1).2
            is_connected := true })
      else
        (.error (connection_exception.of_msg (connection_exception.of_msg
            (ascii "Error while connecting to RethinkDB server: "
              ++ (getline (fill_until 0 c.socket_.incoming []).2.1).1)).what),
          { c with
            socket_ := { c.socket_ with
              is_open := true
              incoming := (fill_until 0 c.socket_.incoming []).2.2
              wire := c.socket_.wire ++ (c.request_ ++ u_int_bytes pb.V0_2
                ++ u_int_bytes (to_u_int c.auth_key.length) ++ c.auth_key) }
            request_ := []
            response_ := (getline (fill_until 0 c.socket_.incoming []).2.1).2
            is_connected := false }) := by
  simp only [connection.connect, hc, resolver_resolve, hres, asio_connect, hacc,
      asio_write, hroom, hresp, Bool.and_false, Bool.false_eq_true,
      if_false, if_true, Bool.not_true]
  rw [asio_read_until_fresh]
  · rfl
  · exact hnul

/-- After `connect` of `connection.cpp` returned true the socket is open and the connection is
connected. -/
theorem driver_connect_ok_state {Query Response : Type} (pb : Protobuf Query Response)
    (c c1 : connection) (h : driver.connection.connect pb c = (.ok true, c1)) :
    c1.socket_.is_open = true ∧ c1.is_connected = true := by
  simp only [driver.connection.connect] at h
  split at h
  · next hcond =>
    simp only [Prod.mk.injEq, true_and] at h
    subst h
    simpa using hcond
  · split at h
    · simp at h
    · split at h
      · simp at h
      · split at h
        · simp at h
        · next n s2 req hw =>
          split at h
          · simp at h
          · next m s3 resp hr =>
            have h3 := congrArg (fun r => r.2.1.is_open) hr
            simp only [asio_read_until_is_open] at h3
            split at h
            · simp only [Prod.mk.injEq, true_and] at h
              subst h
              exact ⟨by simpa [← h3] using (asio_write_ok hw).2.1, rfl⟩
            · simp at h

/-- After `connect` of `rethink_db.cpp` returned true the socket is open and the connection is
connected. -/
theorem connect_ok_state {Query Response : Type} (pb : Protobuf Query Response)
    (c c1 : connection) (h : connection.connect pb c = (.ok true, c1)) :
    c1.socket_.is_open = true ∧ c1.is_connected = true := by
  simp only [connection.connect] at h
  split at h
  · next hcond =>
    simp only [Prod.mk.injEq, true_and] at h
    subst h
    simpa using hcond
  · split at h
    · simp at h
    · split at h
      · simp at h
      · split at h
        · simp at h
        · next n s2 req hw =>
          split at h
          · simp at h
          · next m s3 resp hr =>
            have h3 := congrArg (fun r => r.2.1.is_open) hr
            simp only [asio_read_until_is_open] at h3
            split at h
            · simp only [Prod.mk.injEq, true_and] at h
              subst h
              exact ⟨by simpa [← h3] using (asio_write_ok hw).2.1, rfl⟩
            · simp at h

/-- The guard of line 17 of `connection.cpp`: on an open socket and a connected connection `connect`
returns true and changes nothing. -/
theorem driver_connect_connected {Query Response : Type} (pb : Protobuf Query Response)
    (c : connection) (ho : c.socket_.is_open = true) (hc : c.is_connected = true) :
    driver.connection.connect pb c = (.ok true, c) := by
  simp [driver.connection.connect, ho, hc]

/-- The guard of line 50 of `rethink_db.cpp`: on an open socket and a connected connection `connect`
returns true and changes nothing. -/
theorem connect_connected {Query Response : Type} (pb : Protobuf Query Response)
    (c : connection) (ho : c.socket_.is_open = true) (hc : c.is_connected = true) :
    connection.connect pb c = (.ok true, c) := by
  simp [connection.connect, ho, hc]

/-- A handshake of `connection.cpp` that succeeded leaves the request streambuf empty. -/
theorem driver_connect_ok_request {Query Response : Type} (pb : Protobuf Query Response)
    (c c1 : connection) (hc : c.is_connected = false)
    (h : driver.connection.connect pb c = (.ok true, c1)) : c1.request_ = [] := by
  simp only [driver.connection.connect, hc, Bool.and_false, Bool.false_eq_true, if_false] at h
  split at h
  · simp at h
  · split at h
    · simp at h
    · split at h
      · simp at h
      · next n s2 req hw =>
        split at h
        · simp at h
        · split at h
          · simp only [Prod.mk.injEq, true_and] at h
            subst h
            exact (asio_write_ok hw).2.2.1
          · simp at h

/-- A handshake of `rethink_db.cpp` that succeeded leaves the request streambuf empty. -/
theorem connect_ok_request {Query Response : Type} (pb : Protobuf Query Response)
    (c c1 : connection) (hc : c.is_connected = false)
    (h : connection.connect pb c = (.ok true, c1)) : c1.request_ = [] := by
  simp only [connection.connect, hc, Bool.and_false, Bool.false_eq_true, if_false] at h
  split at h
  · simp at h
  · split at h
    · simp at h
    · split at h
      · simp at h
      · next n s2 req hw =>
        split at h
        · simp at h
        · split at h
          · simp only [Prod.mk.injEq, true_and] at h
            subst h
            exact (asio_write_ok hw).2.2.1
          · simp at h

/-! Frames. -/

/-- What `write_query` of `connection.cpp` does on an open socket with unbounded room and an empty
request streambuf. -/
theorem driver_write_query_unbounded {Query Response : Type} (pb : Protobuf Query Response)
    (query : Query) (c : connection) (ho : c.socket_.is_open = true)
    (hroom : c.socket_.write_room = none) (hreq : c.request_ = []) :
    driver.connection.write_query pb query c =
      (.ok (), { c with
        socket_ := { c.socket_ with
          wire := c.socket_.wire ++ (u_int_bytes (to_u_int (pb.SerializeAsString query).length)
            ++ pb.SerializeAsString query) }
        request_ := [] }) := by
  simp [driver.connection.write_query, asio_write, ho, hroom, hreq]

/-- What `write_query` of `rethink_db.cpp` does on an open socket with unbounded room and an empty
request streambuf. -/
theorem write_query_unbounded {Query Response : Type} (pb : Protobuf Query Response)
    (query : Query) (c : connection) (ho : c.socket_.is_open = true)
    (hroom : c.socket_.write_room = none) (hreq : c.request_ = []) :
    connection.write_query pb query c =
      (.ok (), { c with
        socket_ := { c.socket_ with
          wire := c.socket_.wire ++ (u_int_bytes (to_u_int (pb.SerializeAsString query).length)
            ++ pb.SerializeAsString query) }
        request_ := [] }) := by
  simp [connection.write_query, asio_write, ho, hroom, hreq]

/-- The outcome of `write_query` of `connection.cpp`, field by field. -/
theorem driver_write_query_ok {Query Response : Type} (pb : Protobuf Query Response)
    (query : Query) (c : connection) (ho : c.socket_.is_open = true)
    (hroom : c.socket_.write_room = none) (hreq : c.request_ = []) :
    (driver.connection.write_query pb query c).1 = .ok ()
      ∧ (driver.connection.write_query pb query c).2.request_ = []
      ∧ (driver.connection.write_query pb query c).2.socket_.is_open = true
      ∧ (driver.connection.write_query pb query c).2.socket_.write_room = none
      ∧ (driver.connection.write_query pb query c).2.socket_.wire
          = c.socket_.wire ++ (u_int_bytes (to_u_int (pb.SerializeAsString query).length)
            ++ pb.SerializeAsString query) := by
  rw [driver_write_query_unbounded pb query c ho hroom hreq]
  exact ⟨rfl, rfl, ho, hroom, rfl⟩

/-- The outcome of `write_query` of `rethink_db.cpp`, field by field. -/
theorem write_query_ok {Query Response : Type} (pb : Protobuf Query Response)
    (query : Query) (c : connection) (ho : c.socket_.is_open = true)
    (hroom : c.socket_.write_room = none) (hreq : c.request_ = []) :
    (connection.write_query pb query c).1 = .ok ()
      ∧ (connection.write_query pb query c).2.request_ = []
      ∧ (connection.write_query pb query c).2.socket_.is_open = true
      ∧ (connection.write_query pb query c).2.socket_.write_room = none
      ∧ (connection.write_query pb query c).2.socket_.wire
          = c.socket_.wire ++ (u_int_bytes (to_u_int (pb.SerializeAsString query).length)
            ++ pb.SerializeAsString query) := by
  rw [write_query_unbounded pb query c ho hroom hreq]
  exact ⟨rfl, rfl, ho, hroom, rfl⟩

/-- Method `read_response` of `connection.cpp` touches neither the request streambuf nor the wire. -/
theorem driver_read_response_frame {Query Response : Type} (pb : Protobuf Query Response)
    (c : connection) :
    (driver.connection.read_response pb c).2.request_ = c.request_
      ∧ (driver.connection.read_response pb c).2.socket_.wire = c.socket_.wire
      ∧ (driver.connection.read_response pb c).2.socket_.is_open = c.socket_.is_open
      ∧ (driver.connection.read_response pb c).2.socket_.write_room = c.socket_.write_room := by
  simp only [driver.connection.read_response]
  split
  · next e s1 h1 =>
    have := asio_read_socket c.socket_ 4
    rw [h1] at this
    simpa using this
  · next header s1 h1 =>
    have a1 := asio_read_socket c.socket_ 4
    rw [h1] at a1
    split
    · next e s2 h2 =>
      have a2 := asio_read_socket s1 (u_int_of_bytes header)
      rw [h2] at a2
      simp only [] at a1 a2
      simp [a1, a2]
    · next reply s2 h2 =>
      have a2 := asio_read_socket s1 (u_int_of_bytes header)
      rw [h2] at a2
      simp only [] at a1 a2
      split
      · simp [a1, a2]
      · split <;> simp [a1, a2]

/-- Method `read_response` of `rethink_db.cpp` touches neither the request streambuf nor the wire. -/
theorem read_response_frame {Query Response : Type} (pb : Protobuf Query Response)
    (c : connection) :
    (connection.read_response pb c).2.request_ = c.request_
      ∧ (connection.read_response pb c).2.socket_.wire = c.socket_.wire
      ∧ (connection.read_response pb c).2.socket_.is_open = c.socket_.is_open
      ∧ (connection.read_response pb c).2.socket_.write_room = c.socket_.write_room := by
  simp only [connection.read_response]
  split
  · next e s1 h1 =>
    have := asio_read_socket c.socket_ 4
    rw [h1] at this
    simpa using this
  · next header s1 h1 =>
    have a1 := asio_read_socket c.socket_ 4
    rw [h1] at a1
    split
    · next e s2 h2 =>
      have a2 := asio_read_socket s1 (u_int_of_bytes header)
      rw [h2] at a2
      simp only [] at a1 a2
      simp [a1, a2]
    · next reply s2 h2 =>
      have a2 := asio_read_socket s1 (u_int_of_bytes header)
      rw [h2] at a2
      simp only [] at a1 a2
      split
      · simp [a1, a2]
      · split <;> simp [a1, a2]

/-- On a stream that starts with a four-byte header and the number of payload bytes the header
announces, `read_response` of `connection.cpp` calls the deserializer with exactly that payload
and its length converted to `int`. -/
theorem driver_read_response_complete {Query Response : Type} (pb : Protobuf Query Response)
    (r : connection) (header payload rest : List Byte) (ho : r.socket_.is_open = true)
    (hin : r.socket_.incoming.flatten = header ++ (payload ++ rest))
    (hh : header.length = 4) (hp : payload.length = u_int_of_bytes header) :
    (driver.connection.read_response pb r).1 =
      match pb.ParseFromArray payload (to_int payload.length) with
      | .raised => .error (connection_exception.of_msg
          (ascii "Read response: " ++ (connection_exception.of_msg
            (ascii "Unable to parse the protobuf Response object.")).what))
      | .returned _ msg => .ok msg := by
  obtain ⟨a1, f1⟩ := asio_read_exact r.socket_ 4 header (payload ++ rest) ho hin hh
  obtain ⟨a2, _⟩ := asio_read_exact { r.socket_ with incoming := (recv r.socket_.incoming 4).2 }
    (u_int_of_bytes header) payload rest ho f1 hp
  simp only [driver.connection.read_response, a1, a2, hp, ne_eq, not_true_eq_false, if_false]
  cases pb.ParseFromArray payload (to_int (u_int_of_bytes header)) <;> rfl

/-- A read that returns normally filled the whole buffer: the comparison
`bytes_read != response_length` of `read_response` cannot hold after it. -/
theorem asio_read_ok_length {s s2 : Socket} {n : Nat} {a : List Byte}
    (h : asio_read s n = (.ok a, s2)) : a.length = n := by
  unfold asio_read at h
  split at h
  · simp at h
  · simp only [] at h
    split at h
    · next hl =>
      simp only [Prod.mk.injEq, Except.ok.injEq] at h
      rw [← h.1]
      exact hl
    · simp at h

/-- A read of more bytes than the stream still holds throws. -/
theorem asio_read_short (s : Socket) (n : Nat) (ho : s.is_open = true)
    (hin : s.incoming.flatten.length < n) :
    asio_read s n = (.error .eof, { s with incoming := (recv s.incoming n).2 }) := by
  have e1 : (recv s.incoming n).1.length ≠ n := by
    rw [recv_fst, List.length_take]
    omega
  simp [asio_read, ho, e1]

/-- On a stream that ends after a four-byte header and fewer payload bytes than the header
announces, `read_response` of `connection.cpp` throws the text of line 86 behind the text of
line 101, whatever the two counts are. -/
theorem driver_read_response_truncated {Query Response : Type} (pb : Protobuf Query Response)
    (r : connection) (header payload : List Byte) (ho : r.socket_.is_open = true)
    (hin : r.socket_.incoming.flatten = header ++ payload)
    (hh : header.length = 4) (hk : payload.length < u_int_of_bytes header) :
    (driver.connection.read_response pb r).1
      = .error ⟨ascii "Read response: Unable to read from the socket."⟩ := by
  obtain ⟨a1, f1⟩ := asio_read_exact r.socket_ 4 header payload ho hin hh
  have a2 := asio_read_short { r.socket_ with incoming := (recv r.socket_.incoming 4).2 }
    (u_int_of_bytes header) ho (by rw [f1]; exact hk)
  simp only [driver.connection.read_response, a1, a2]
  exact congrArg Except.error (by decide)

/-- On a stream that ends after a four-byte header and fewer payload bytes than the header
announces, `read_response` of `rethink_db.cpp` throws the text of line 149 behind the text of
line 163, whatever the two counts are. -/
theorem read_response_truncated {Query Response : Type} (pb : Protobuf Query Response)
    (r : connection) (header payload : List Byte) (ho : r.socket_.is_open = true)
    (hin : r.socket_.incoming.flatten = header ++ payload)
    (hh : header.length = 4) (hk : payload.length < u_int_of_bytes header) :
    (connection.read_response pb r).1
      = .error ⟨ascii "Connection exception - read response: Unable to read from the socket."⟩ := by
  obtain ⟨a1, f1⟩ := asio_read_exact r.socket_ 4 header payload ho hin hh
  have a2 := asio_read_short { r.socket_ with incoming := (recv r.socket_.incoming 4).2 }
    (u_int_of_bytes header) ho (by rw [f1]; exact hk)
  simp only [connection.read_response, a1, a2]
  exact congrArg Except.error (by decide)

/-- Once the streambuf holds the delimiter, `fill_until` receives nothing. -/
theorem fill_until_of_mem (d : Byte) (cs : List (List Byte)) (b : List Byte) (h : d ∈ b) :
    fill_until d cs b = (true, b, cs) := by
  cases cs <;> simp [fill_until, h]

/-- The state `established` stands for, field by field. -/
theorem established_eq (incoming : List (List Byte)) :
    established incoming =
      { host := ascii "localhost", port := ascii "28015", database := ascii "test",
        auth_key := [], is_connected := true,
        socket_ := { is_open := true, resolves := true, accepts := true, write_room := none,
                     incoming := incoming,
                     wire := u_int_bytes recording_pb.V0_2 ++ u_int_bytes 0 },
        request_ := [], response_ := [] } := by
  have hnul : (0 : Byte) ∈
      (fresh [] ((ascii "SUCCESS" ++ [0]) :: incoming)).socket_.incoming.flatten := by
    show (0 : Byte) ∈ ((ascii "SUCCESS" ++ [0]) :: incoming).flatten
    simp
  have hfill : fill_until 0 (fresh [] ((ascii "SUCCESS" ++ [0]) :: incoming)).socket_.incoming []
      = (true, ascii "SUCCESS" ++ [0], incoming) := by
    show fill_until 0 ((ascii "SUCCESS" ++ [0]) :: incoming) [] = _
    rw [fill_until, if_neg (List.not_mem_nil _), List.nil_append]
    exact fill_until_of_mem 0 incoming _ (by simp)
  have hline : getline (ascii "SUCCESS" ++ [0]) = (ascii "SUCCESS" ++ [0], []) := by decide
  unfold established
  rw [driver_connect_handshake recording_pb _ rfl rfl rfl rfl rfl hnul, hfill]
  simp only [hline]
  rw [if_pos (by decide)]
  rfl

/-- For a payload of exactly `2 ^ 32` bytes the length written is `0`, and reading the frame
back hands the empty payload to the deserializer. -/
theorem read_back_of_length_two_pow_32 (p : List Byte) (hlen : p.length = 2 ^ 32) :
    (driver.connection.write_query recording_pb p (established [])).1 = .ok ()
    ∧ (driver.connection.read_response recording_pb
        (established [((driver.connection.write_query recording_pb p
          (established [])).2.socket_.wire).drop (established []).socket_.wire.length])).1
        = .ok ([], 0)
    ∧ (([], 0) : List Byte × Int) ≠ (p, (p.length : Int)) := by
  obtain ⟨w1, _, _, _, w1w⟩ := driver_write_query_ok recording_pb p (established [])
    (by rw [established_eq]) (by rw [established_eq]) (by rw [established_eq])
  have hz : to_u_int (recording_pb.SerializeAsString p).length = 0 := by
    show to_u_int p.length = 0
    rw [hlen]
    decide
  refine ⟨w1, ?_, ?_⟩
  · rw [w1w, List.drop_left, hz]
    exact driver_read_response_complete recording_pb _ (u_int_bytes 0) [] p
      (by rw [established_eq]) (by rw [established_eq]; simp [recording_pb]) rfl rfl
  · intro h
    have := congrArg Prod.snd h
    simp only [hlen] at this
    norm_num at this

/-- For a payload of exactly `2 ^ 31` bytes the frame is read back in full, and the size handed
to the deserializer with it is `-2147483648`. -/
theorem read_back_of_length_two_pow_31 (p : List Byte) (hlen : p.length = 2 ^ 31) :
    (driver.connection.write_query recording_pb p (established [])).1 = .ok ()
    ∧ (driver.connection.read_response recording_pb
        (established [((driver.connection.write_query recording_pb p
          (established [])).2.socket_.wire).drop (established []).socket_.wire.length])).1
        = .ok (p, -2147483648)
    ∧ (p, (-2147483648 : Int)) ≠ (p, (p.length : Int)) := by
  obtain ⟨w1, _, _, _, w1w⟩ := driver_write_query_ok recording_pb p (established [])
    (by rw [established_eq]) (by rw [established_eq]) (by rw [established_eq])
  have hz : to_u_int (recording_pb.SerializeAsString p).length = 2 ^ 31 := by
    show to_u_int p.length = 2 ^ 31
    rw [hlen]
    decide
  have hneg : to_int (2 ^ 31) = -2147483648 := by decide
  refine ⟨w1, ?_, ?_⟩
  · rw [w1w, List.drop_left, hz]
    have h := driver_read_response_complete recording_pb
      (established [u_int_bytes (2 ^ 31) ++ recording_pb.SerializeAsString p])
      (u_int_bytes (2 ^ 31)) p []
      (by rw [established_eq]) (by rw [established_eq]; simp [recording_pb]) rfl
      (by rw [hlen, u_int_of_bytes_u_int_bytes]; decide)
    rw [hlen, hneg] at h
    exact h
  · intro h
    have := congrArg Prod.snd h
    simp only [hlen] at this
    norm_num at this

/-! The claims. -/

/-- Claim C1, amended. For every serialized payload `p` shorter than `2 ^ 31` bytes (the empty
one included): a `write_query` of `connection.cpp` that returns normally from an empty request
streambuf puts on the wire the four-byte length of `p` followed by `p`; and when these bytes,
in any segmentation, are the input stream of `read_response`, the deserializer is called with
the buffer `p` and the size `len p`, and `read_response` returns the message it produced. -/
theorem frame_round_trip {Query Response : Type} (pb : Protobuf Query Response)
    (query : Query) (c r : connection)
    (hlen : (pb.SerializeAsString query).length < 2 ^ 31)
    (hreq : c.request_ = [])
    (hw : (driver.connection.write_query pb query c).1 = .ok ())
    (ho : r.socket_.is_open = true)
    (hin : r.socket_.incoming.flatten
      = ((driver.connection.write_query pb query c).2.socket_.wire).drop c.socket_.wire.length) :
    (driver.connection.write_query pb query c).2.socket_.wire
        = c.socket_.wire
          ++ (u_int_bytes (pb.SerializeAsString query).length ++ pb.SerializeAsString query)
    ∧ (driver.connection.read_response pb r).1 =
        match pb.ParseFromArray (pb.SerializeAsString query)
            ((pb.SerializeAsString query).length : Int) with
        | .raised => .error (connection_exception.of_msg
            (ascii "Read response: " ++ (connection_exception.of_msg
              (ascii "Unable to parse the protobuf Response object.")).what))
        | .returned _ msg => .ok msg := by
  have hlen2 : (pb.SerializeAsString query).length < 2 ^ 32 := by omega
  have hwire : (driver.connection.write_query pb query c).2.socket_.wire
        = c.socket_.wire
          ++ (u_int_bytes (pb.SerializeAsString query).length ++ pb.SerializeAsString query) := by
    simp only [driver.connection.write_query, hreq, to_u_int_of_lt hlen2, List.nil_append] at hw ⊢
    split at hw
    · simp at hw
    · next n s1 req h1 =>
      exact (asio_write_ok h1).2.2.2
  refine ⟨hwire, ?_⟩
  rw [hwire, List.drop_left] at hin
  rw [← to_int_of_lt hlen]
  exact driver_read_response_complete pb r (u_int_bytes (pb.SerializeAsString query).length)
    (pb.SerializeAsString query) [] ho (by simpa using hin) rfl
    (by rw [u_int_of_bytes_u_int_bytes, Nat.mod_eq_of_lt hlen2])

/-- Claim C1, witness: the payload `01 02 03`, its frame delivered in three segments. -/
theorem frame_round_trip_witness :
    (driver.connection.read_response recording_pb (established [[3, 0], [0, 0, 1], [2, 3]])).1
      = .ok ([1, 2, 3], 3) :=
  (frame_round_trip recording_pb [1, 2, 3] (established []) (established [[3, 0], [0, 0, 1], [2, 3]])
    (by decide) rfl rfl rfl rfl).2

/-- Claim C1 as stated fails. For the payload of `2 ^ 32` zero bytes `write_query` returns
normally, and `read_response` on the frame it emitted decodes the length `0` and hands the empty
payload to the deserializer. For the payload of `2 ^ 31` zero bytes the frame is read back in
full, but the size handed to the deserializer is `-2147483648`, not the length of the payload. -/
theorem oversized_payload_not_read_back :
    ((driver.connection.write_query recording_pb big_payload (established [])).1 = .ok ()
      ∧ (driver.connection.read_response recording_pb
          (established [((driver.connection.write_query recording_pb big_payload
            (established [])).2.socket_.wire).drop (established []).socket_.wire.length])).1
          = .ok ([], 0)
      ∧ (([], 0) : List Byte × Int) ≠ (big_payload, (big_payload.length : Int)))
    ∧ ((driver.connection.write_query recording_pb half_payload (established [])).1 = .ok ()
      ∧ (driver.connection.read_response recording_pb
          (established [((driver.connection.write_query recording_pb half_payload
            (established [])).2.socket_.wire).drop (established []).socket_.wire.length])).1
          = .ok (half_payload, -2147483648)
      ∧ (half_payload, (-2147483648 : Int)) ≠ (half_payload, (half_payload.length : Int))) :=
  ⟨read_back_of_length_two_pow_32 big_payload (List.length_replicate _ _),
   read_back_of_length_two_pow_31 half_payload (List.length_replicate _ _)⟩

/-- The first handshake on the wire. For every credential shorter than `2 ^ 32` bytes, when the
peer resolves, accepts and takes the write, `connect` (of `connection.cpp` and of
`rethink_db.cpp`) on a connection that is not connected and whose request streambuf is empty
appends to the wire exactly the four bytes of `V0_2`, the four little-endian bytes of the
credential length, and the credential bytes. -/
theorem handshake_wire_format {Query Response : Type} (pb : Protobuf Query Response)
    (c : connection)
    (hres : c.socket_.resolves = true) (hacc : c.socket_.accepts = true)
    (hroom : c.socket_.write_room = none)
    (hc : c.is_connected = false) (hreq : c.request_ = [])
    (hlen : c.auth_key.length < 2 ^ 32) :
    (driver.connection.connect pb c).2.socket_.wire
        = c.socket_.wire ++ (u_int_bytes pb.V0_2 ++ u_int_bytes c.auth_key.length ++ c.auth_key)
    ∧ (connection.connect pb c).2.socket_.wire
        = c.socket_.wire ++ (u_int_bytes pb.V0_2 ++ u_int_bytes c.auth_key.length ++ c.auth_key) := by
  constructor
  · simp only [driver.connection.connect, hc, resolver_resolve, hres, asio_connect, hacc,
      asio_write, hroom, hreq, to_u_int_of_lt hlen, Bool.and_false, Bool.false_eq_true,
      if_false, if_true, Bool.not_true, List.nil_append]
    split
    · next e s3 resp heq =>
      have hw := congrArg (fun r => r.2.1.wire) heq
      simpa [asio_read_until_wire] using hw.symm
    · next n s3 resp heq =>
      have hw := congrArg (fun r => r.2.1.wire) heq
      simp only [asio_read_until_wire] at hw
      split <;> simpa using hw.symm
  · simp only [connection.connect, hc, resolver_resolve, hres, asio_connect, hacc,
      asio_write, hroom, hreq, to_u_int_of_lt hlen, Bool.and_false, Bool.false_eq_true,
      if_false, if_true, Bool.not_true, List.nil_append]
    split
    · next e s3 resp heq =>
      have hw := congrArg (fun r => r.2.1.wire) heq
      simpa [asio_read_until_wire] using hw.symm
    · next n s3 resp heq =>
      have hw := congrArg (fun r => r.2.1.wire) heq
      simp only [asio_read_until_wire] at hw
      split <;> simpa using hw.symm

/-- Example of the first handshake on the wire: the credential `key`. -/
theorem handshake_wire_format_witness :
    (driver.connection.connect recording_pb (fresh (ascii "key") [])).2.socket_.wire
        = [225, 129, 48, 114, 3, 0, 0, 0, 107, 101, 121]
    ∧ (connection.connect recording_pb (fresh (ascii "key") [])).2.socket_.wire
        = [225, 129, 48, 114, 3, 0, 0, 0, 107, 101, 121] :=
  handshake_wire_format recording_pb (fresh (ascii "key") []) rfl rfl rfl rfl rfl (by decide)

/-- The first handshake classified. For every reply `t ++ [0]`, in any segmentation, to a
connection that is not connected and has an empty response streambuf (peer resolving,
accepting, taking the write): when the response string begins with `SUCCESS` both `connect`
return true and leave the connection connected with an open socket; otherwise both throw a
`connection_exception` and leave it not connected. -/
theorem handshake_classification {Query Response : Type} (pb : Protobuf Query Response)
    (c : connection) (t : List Byte)
    (hres : c.socket_.resolves = true) (hacc : c.socket_.accepts = true)
    (hroom : c.socket_.write_room = none)
    (hc : c.is_connected = false) (hresp : c.response_ = [])
    (hin : c.socket_.incoming.flatten = t ++ [0]) :
    (ascii "SUCCESS" <+: spec_response_string (t ++ [0]) →
      ((driver.connection.connect pb c).1 = .ok true
        ∧ (driver.connection.connect pb c).2.is_connected = true
        ∧ (driver.connection.connect pb c).2.socket_.is_open = true)
      ∧ ((connection.connect pb c).1 = .ok true
        ∧ (connection.connect pb c).2.is_connected = true
        ∧ (connection.connect pb c).2.socket_.is_open = true))
    ∧ (¬ ascii "SUCCESS" <+: spec_response_string (t ++ [0]) →
      ((∃ e, (driver.connection.connect pb c).1 = .error e)
        ∧ (driver.connection.connect pb c).2.is_connected = false)
      ∧ ((∃ e, (connection.connect pb c).1 = .error e)
        ∧ (connection.connect pb c).2.is_connected = false)) := by
  obtain ⟨hnul, hpre, hmem⟩ := reply_buffer hin
  have hiff := success_test_iff hpre hmem
  rw [driver_connect_handshake pb c hres hacc hroom hc hresp hnul,
    connect_handshake pb c hres hacc hroom hc hresp hnul]
  constructor
  · intro h
    rw [if_pos (hiff.2 h), if_pos (hiff.2 h)]
    simp
  · intro h
    rw [if_neg (fun h2 => h (hiff.1 h2)), if_neg (fun h2 => h (hiff.1 h2))]
    simp

/-- Example of the first handshake classified: the reply `SUCCESS` followed by NUL is accepted. -/
theorem handshake_classification_witness :
    (driver.connection.connect recording_pb (fresh (ascii "key") [ascii "SUCCESS" ++ [0]])).1
        = .ok true
    ∧ (driver.connection.connect recording_pb
        (fresh (ascii "key") [ascii "SUCCESS" ++ [0]])).2.is_connected = true
    ∧ (connection.connect recording_pb (fresh (ascii "key") [ascii "SUCCESS" ++ [0]])).1
        = .ok true
    ∧ (connection.connect recording_pb
        (fresh (ascii "key") [ascii "SUCCESS" ++ [0]])).2.is_connected = true :=
  have h := (handshake_classification recording_pb (fresh (ascii "key") [ascii "SUCCESS" ++ [0]])
    (ascii "SUCCESS") rfl rfl rfl rfl rfl (by rfl)).1 ⟨[], by rfl⟩
  ⟨h.1.1, h.1.2.1, h.2.1, h.2.2.1⟩

/-- The text of a first handshake that fails. For every reply `t ++ [0]` with no NUL in `t`, in
any segmentation, to a connection with an empty response streambuf, whose response string (`t`
up to its first newline, or all of `t`) does not begin with `SUCCESS`, `connect` of
`connection.cpp` throws a `connection_exception` whose `what()` is exactly that response
string, and the connection is not connected. -/
theorem handshake_failure_text {Query Response : Type} (pb : Protobuf Query Response)
    (c : connection) (t : List Byte)
    (hres : c.socket_.resolves = true) (hacc : c.socket_.accepts = true)
    (hroom : c.socket_.write_room = none)
    (hc : c.is_connected = false) (hresp : c.response_ = [])
    (ht : (0 : Byte) ∉ t)
    (hin : c.socket_.incoming.flatten = t ++ [0])
    (hfail : ¬ ascii "SUCCESS" <+: t.takeWhile (fun x => x ≠ 10)) :
    (driver.connection.connect pb c).1 = .error ⟨t.takeWhile (fun x => x ≠ 10)⟩
      ∧ (driver.connection.connect pb c).2.is_connected = false := by
  obtain ⟨hnul, hpre, hmem⟩ := reply_buffer hin
  have hiff := success_test_iff hpre hmem
  have hbuf := eq_concat_of_initial_of_mem hpre hmem ht
  have hrs : spec_response_string (t ++ [0]) = t.takeWhile (fun x => x ≠ 10) := by
    unfold spec_response_string
    rw [takeWhile_concat_self 0 t ht]
  rw [hrs] at hiff
  rw [driver_connect_handshake pb c hres hacc hroom hc hresp hnul,
    if_neg (fun h2 => hfail (hiff.1 h2))]
  refine ⟨?_, rfl⟩
  simp only [connection_exception.of_msg, c_str, getline, hbuf]
  rw [takeWhile_takeWhile_comm, takeWhile_concat_self 0 t ht]

/-- Example of a first handshake that fails: the reply `ERROR: bad auth` followed by NUL. -/
theorem handshake_failure_text_witness :
    (driver.connection.connect recording_pb
        (fresh (ascii "key") [ascii "ERROR: bad auth" ++ [0]])).1
        = .error ⟨ascii "ERROR: bad auth"⟩
    ∧ (driver.connection.connect recording_pb
        (fresh (ascii "key") [ascii "ERROR: bad auth" ++ [0]])).2.is_connected = false :=
  handshake_failure_text recording_pb (fresh (ascii "key") [ascii "ERROR: bad auth" ++ [0]])
    (ascii "ERROR: bad auth") rfl rfl rfl rfl rfl (by decide) (by rfl) (by decide)

/-- Claim C2, the code at a failing input: `write_query` before `connect` fails on the closed
socket and leaves its frame in the request streambuf; the `connect` that follows puts that
frame on the wire of the newly opened socket before the bytes of `V0_2`. -/
theorem stale_request_sent_before_magic :
    (∃ e, (driver.connection.write_query recording_pb [7, 8] (fresh (ascii "key") [])).1
        = .error e)
    ∧ query_before_connect.request_ = [2, 0, 0, 0, 7, 8]
    ∧ query_before_connect.is_connected = false
    ∧ query_before_connect.socket_.is_open = false
    ∧ query_before_connect.socket_.wire = []
    ∧ (driver.connection.connect recording_pb query_before_connect).2.socket_.wire
        = [2, 0, 0, 0, 7, 8] ++ [225, 129, 48, 114, 3, 0, 0, 0, 107, 101, 121]
    ∧ (driver.connection.connect recording_pb query_before_connect).2.socket_.wire
        ≠ [225, 129, 48, 114, 3, 0, 0, 0, 107, 101, 121] :=
  ⟨⟨_, by rfl⟩, by rfl, by rfl, by rfl, by rfl, by rfl, by decide⟩

/-- Claim C3, the code at a failing input: a first `connect` of `connection.cpp` is rejected
with the reply `no`, newline, NUL, and `getline` leaves the NUL in the response streambuf; on
the next `connect` the peer replies `SUCCESS` NUL, whose response string begins with
`SUCCESS`, but `read_until` returns at once on the stale NUL, the reply stays unread, and
`connect` throws and leaves the connection not connected. -/
theorem stale_response_rejects_success :
    (rejected_then (ascii "SUCCESS" ++ [0])).is_connected = false
    ∧ (rejected_then (ascii "SUCCESS" ++ [0])).response_ = [0]
    ∧ (rejected_then (ascii "SUCCESS" ++ [0])).socket_.incoming = [ascii "SUCCESS" ++ [0]]
    ∧ ascii "SUCCESS" <+: spec_response_string (ascii "SUCCESS" ++ [0])
    ∧ (driver.connection.connect recording_pb (rejected_then (ascii "SUCCESS" ++ [0]))).1
        = .error ⟨[]⟩
    ∧ (driver.connection.connect recording_pb
        (rejected_then (ascii "SUCCESS" ++ [0]))).2.is_connected = false
    ∧ (driver.connection.connect recording_pb
        (rejected_then (ascii "SUCCESS" ++ [0]))).2.socket_.incoming = [ascii "SUCCESS" ++ [0]] :=
  ⟨by rfl, by rfl, by rfl, ⟨[], by rfl⟩, by rfl, by rfl, by rfl⟩

/-- Claim C4, the code at a failing input: after a first `connect` of `connection.cpp` rejected
with the reply `no`, newline, NUL, the peer replies `ERROR: bad auth` NUL to the next
`connect`; `read_until` returns at once on the stale NUL and `connect` throws a
`connection_exception` whose `what()` is empty, not the text of the server. -/
theorem stale_response_hides_failure_text :
    (rejected_then (ascii "ERROR: bad auth" ++ [0])).is_connected = false
    ∧ (rejected_then (ascii "ERROR: bad auth" ++ [0])).response_ = [0]
    ∧ (driver.connection.connect recording_pb
        (rejected_then (ascii "ERROR: bad auth" ++ [0]))).1 = .error ⟨[]⟩
    ∧ (⟨[]⟩ : connection_exception) ≠ ⟨ascii "ERROR: bad auth"⟩
    ∧ (driver.connection.connect recording_pb
        (rejected_then (ascii "ERROR: bad auth" ++ [0]))).2.socket_.incoming
        = [ascii "ERROR: bad auth" ++ [0]] :=
  ⟨by rfl, by rfl, by rfl, by decide, by rfl⟩

/-- Claim C5, the code at failing inputs: a header announcing 5 bytes followed by 2 bytes and the
end of the stream, and one announcing 7 followed by 3, make `read_response` throw the same text,
which names neither count (in both implementations). -/
theorem truncated_read_hides_counts :
    (driver.connection.read_response recording_pb (established [[5, 0, 0, 0], [97, 98]])).1
        = .error ⟨ascii "Read response: Unable to read from the socket."⟩
    ∧ (driver.connection.read_response recording_pb (established [[7, 0, 0, 0], [1, 2, 3]])).1
        = .error ⟨ascii "Read response: Unable to read from the socket."⟩
    ∧ (connection.read_response recording_pb (established [[5, 0, 0, 0], [97, 98]])).1
        = .error ⟨ascii "Connection exception - read response: Unable to read from the socket."⟩
    ∧ (connection.read_response recording_pb (established [[7, 0, 0, 0], [1, 2, 3]])).1
        = .error ⟨ascii "Connection exception - read response: Unable to read from the socket."⟩ :=
  ⟨rfl, rfl, rfl, rfl⟩

/-- Claim C6, the code at a failing input: for the frame `01 00 00 00 FF`, whose payload the
deserializer rejects by returning `false`, `read_response` returns the message object to the
caller (in both implementations). -/
theorem rejected_payload_returned :
    recording_pb.ParseFromArray [255] 1 = .returned false ([255], 1)
    ∧ (driver.connection.read_response recording_pb (established [[1, 0, 0, 0, 255]])).1
        = .ok ([255], 1)
    ∧ (connection.read_response recording_pb (established [[1, 0, 0, 0, 255]])).1
        = .ok ([255], 1) :=
  ⟨rfl, rfl, rfl⟩

/-- Claim C7, the code at a failing input: for the raw value of kind bool carrying `true`, `parse`
returns the null datum, not the bool datum carrying `true`. -/
theorem parse_bool_yields_null :
    driver.connection.parse raw_true = .ok driver.datum.null_datum
    ∧ driver.connection.parse raw_true ≠ .ok (driver.datum.bool_datum true) :=
  ⟨rfl, by simp [driver.connection.parse]⟩

/-- Claim C8, the code at a failing input: for the raw value with type tag 7, outside the six
recognised kinds, `parse` raises no error and returns the null datum. -/
theorem parse_unrecognised_yields_null :
    raw_unrecognised.type.recognised = false
    ∧ driver.connection.parse raw_unrecognised = .ok driver.datum.null_datum
    ∧ ¬ ∃ e, driver.connection.parse raw_unrecognised = .error e :=
  ⟨rfl, rfl, by simp [driver.connection.parse]⟩

/-- Claim C9. On a connection whose handshake just succeeded (`connect` returned true from the
not-connected state) and whose peer takes every write, for queries with serialized payloads `b1`
and `b2` shorter than `2 ^ 32` bytes, the calls `write_query(q1)`, `read_response()`,
`write_query(q2)`, `read_response()` send both frames and leave on the wire, after what the
handshake left there, exactly the length of `b1`, `b1`, the length of `b2`, `b2` (in both
implementations). -/
theorem send_receive_ordering {Query Response : Type} (pb : Protobuf Query Response)
    (q1 q2 : Query) (c0 c1 : connection)
    (hc0 : c0.is_connected = false)
    (hroom : c1.socket_.write_room = none)
    (hl1 : (pb.SerializeAsString q1).length < 2 ^ 32)
    (hl2 : (pb.SerializeAsString q2).length < 2 ^ 32) :
    (driver.connection.connect pb c0 = (.ok true, c1) →
      (driver.connection.write_query pb q1 c1).1 = .ok ()
      ∧ (driver.connection.write_query pb q2
          (driver.connection.read_response pb (driver.connection.write_query pb q1 c1).2).2).1
          = .ok ()
      ∧ (driver.connection.read_response pb
          (driver.connection.write_query pb q2
            (driver.connection.read_response pb
              (driver.connection.write_query pb q1 c1).2).2).2).2.socket_.wire
          = c1.socket_.wire
            ++ (u_int_bytes (pb.SerializeAsString q1).length ++ pb.SerializeAsString q1)
            ++ (u_int_bytes (pb.SerializeAsString q2).length ++ pb.SerializeAsString q2))
    ∧ (connection.connect pb c0 = (.ok true, c1) →
      (connection.write_query pb q1 c1).1 = .ok ()
      ∧ (connection.write_query pb q2
          (connection.read_response pb (connection.write_query pb q1 c1).2).2).1 = .ok ()
      ∧ (connection.read_response pb
          (connection.write_query pb q2
            (connection.read_response pb (connection.write_query pb q1 c1).2).2).2).2.socket_.wire
          = c1.socket_.wire
            ++ (u_int_bytes (pb.SerializeAsString q1).length ++ pb.SerializeAsString q1)
            ++ (u_int_bytes (pb.SerializeAsString q2).length ++ pb.SerializeAsString q2)) := by
  constructor
  · intro h
    have ho := (driver_connect_ok_state pb c0 c1 h).1
    have hreq := driver_connect_ok_request pb c0 c1 hc0 h
    obtain ⟨w1, w1r, w1o, w1m, w1w⟩ := driver_write_query_ok pb q1 c1 ho hroom hreq
    obtain ⟨r1, r2, r3, r4⟩ :=
      driver_read_response_frame pb (driver.connection.write_query pb q1 c1).2
    obtain ⟨w2, _, _, _, w2w⟩ := driver_write_query_ok pb q2
      (driver.connection.read_response pb (driver.connection.write_query pb q1 c1).2).2
      (r3.trans w1o) (r4.trans w1m) (r1.trans w1r)
    obtain ⟨_, s2, _, _⟩ := driver_read_response_frame pb (driver.connection.write_query pb q2
      (driver.connection.read_response pb (driver.connection.write_query pb q1 c1).2).2).2
    refine ⟨w1, w2, ?_⟩
    rw [s2, w2w, r2, w1w, to_u_int_of_lt hl1, to_u_int_of_lt hl2]
  · intro h
    have ho := (connect_ok_state pb c0 c1 h).1
    have hreq := connect_ok_request pb c0 c1 hc0 h
    obtain ⟨w1, w1r, w1o, w1m, w1w⟩ := write_query_ok pb q1 c1 ho hroom hreq
    obtain ⟨r1, r2, r3, r4⟩ :=
      read_response_frame pb (connection.write_query pb q1 c1).2
    obtain ⟨w2, _, _, _, w2w⟩ := write_query_ok pb q2
      (connection.read_response pb (connection.write_query pb q1 c1).2).2
      (r3.trans w1o) (r4.trans w1m) (r1.trans w1r)
    obtain ⟨_, s2, _, _⟩ := read_response_frame pb (connection.write_query pb q2
      (connection.read_response pb (connection.write_query pb q1 c1).2).2).2
    refine ⟨w1, w2, ?_⟩
    rw [s2, w2w, r2, w1w, to_u_int_of_lt hl1, to_u_int_of_lt hl2]

/-- Claim C9, witness: the payloads `07 08` and `09` after a handshake with the credential `key`. -/
theorem send_receive_ordering_witness :
    (driver.connection.read_response recording_pb
      (driver.connection.write_query recording_pb [9]
        (driver.connection.read_response recording_pb
          (driver.connection.write_query recording_pb [7, 8]
            (driver.connection.connect recording_pb two_answers).2).2).2).2).2.socket_.wire
      = [225, 129, 48, 114, 3, 0, 0, 0, 107, 101, 121] ++ [2, 0, 0, 0, 7, 8] ++ [1, 0, 0, 0, 9]
    ∧ (connection.read_response recording_pb
      (connection.write_query recording_pb [9]
        (connection.read_response recording_pb
          (connection.write_query recording_pb [7, 8]
            (connection.connect recording_pb two_answers).2).2).2).2).2.socket_.wire
      = [225, 129, 48, 114, 3, 0, 0, 0, 107, 101, 121] ++ [2, 0, 0, 0, 7, 8] ++ [1, 0, 0, 0, 9] :=
  ⟨((send_receive_ordering recording_pb [7, 8] [9] two_answers
      (driver.connection.connect recording_pb two_answers).2
      rfl (by rfl) (by decide) (by decide)).1 (by rfl)).2.2,
   ((send_receive_ordering recording_pb [7, 8] [9] two_answers
      (connection.connect recording_pb two_answers).2
      rfl (by rfl) (by decide) (by decide)).2 (by rfl)).2.2⟩

/-- Claim C10. After a `connect` that returned true, a further `connect` on the resulting connection
returns true and leaves the whole state (socket with wire and incoming stream, both streambufs,
the connected flag) unchanged, and so does every later one (in both implementations). -/
theorem connect_idempotent {Query Response : Type} (pb : Protobuf Query Response)
    (c c1 : connection) :
    (driver.connection.connect pb c = (.ok true, c1) →
        driver.connection.connect pb c1 = (.ok true, c1)
        ∧ ∀ n, Nat.iterate (fun s => (driver.connection.connect pb s).2) n c1 = c1)
    ∧ (connection.connect pb c = (.ok true, c1) →
        connection.connect pb c1 = (.ok true, c1)
        ∧ ∀ n, Nat.iterate (fun s => (connection.connect pb s).2) n c1 = c1) := by
  constructor
  · intro h
    obtain ⟨ho, hc⟩ := driver_connect_ok_state pb c c1 h
    have hfix := driver_connect_connected pb c1 ho hc
    exact ⟨hfix, iterate_fixed _ c1 (by simp [hfix])⟩
  · intro h
    obtain ⟨ho, hc⟩ := connect_ok_state pb c c1 h
    have hfix := connect_connected pb c1 ho hc
    exact ⟨hfix, iterate_fixed _ c1 (by simp [hfix])⟩

/-- Claim C10, witness: a second `connect` after the handshake with reply `SUCCESS` NUL. -/
theorem connect_idempotent_witness :
    driver.connection.connect recording_pb (driver.connection.connect recording_pb two_answers).2
      = (.ok true, (driver.connection.connect recording_pb two_answers).2)
    ∧ connection.connect recording_pb (connection.connect recording_pb two_answers).2
      = (.ok true, (connection.connect recording_pb two_answers).2) :=
  ⟨((connect_idempotent recording_pb two_answers
      (driver.connection.connect recording_pb two_answers).2).1 (by rfl)).1,
   ((connect_idempotent recording_pb two_answers
      (connection.connect recording_pb two_answers).2).2 (by rfl)).1⟩

end com.rethinkdb
